import Mathlib

/-
Verification of the expense-form and member-edit-modal logic of the
opencollective-frontend sources:
  - `prepareExpenseForSubmit`, `validate`, step gating, draft persistence
    (ExpenseForm, src/unnamed/part_000);
  - `handleSubmitForm` of the member-edit modal
    (src/components/edit-collective/sections/EditMemberModal.js).
JavaScript objects with optional keys are embedded as structures with
`Option` fields; an absent key is `none`.  JS falsiness of a string is
emptiness; falsiness of an object reference is `none`.
-/

namespace OC

/-- Expense types used by the form (the `expenseTypes` constants). -/
inductive ExpenseType
  | RECEIPT
  | INVOICE
deriving DecidableEq

/-- Payout method types (the `PayoutMethodType` constants); the form logic
only inspects `BANK_ACCOUNT`. -/
inductive PayoutMethodType
  | BANK_ACCOUNT
  | PAYPAL
  | OTHER
deriving DecidableEq

/-- A payout method as held in the draft: the five keys that
`prepareExpenseForSubmit` picks. -/
structure PayoutMethod where
  id : Option String
  name : Option String
  data : Option String
  isSaved : Option Bool
  type : Option PayoutMethodType
deriving DecidableEq

/-- The value of `payee.id`: the collective picker can supply either an API
V2 string id or a legacy numeric (API V1) id, which the code distinguishes
with `typeof payee.id === 'string'`. -/
inductive PayeeIdValue
  | str (s : String)
  | num (n : Int)
deriving DecidableEq

/-- A payee reference held in the draft. -/
structure Payee where
  id : PayeeIdValue
  legacyId : Option Int
deriving DecidableEq

/-- A line item of the draft expense.  `__isNew` is the locally-created
flag set when an item is added client-side for keying purposes. -/
structure ExpenseItem where
  id : Option String
  url : Option String
  description : Option String
  incurredAt : Option String
  amount : Option Int
  __isNew : Bool
deriving DecidableEq

/-- An attached file of the draft expense. -/
structure AttachedFile where
  id : Option String
  url : Option String
  name : Option String
deriving DecidableEq

/-- The draft expense: the form values handled by `ExpenseForm` and fed to
`prepareExpenseForSubmit` and `validate`. -/
structure ExpenseValues where
  id : Option String
  type : Option ExpenseType
  description : String
  privateMessage : Option String
  invoiceInfo : Option String
  tags : Option (List String)
  payee : Option Payee
  payoutMethod : Option PayoutMethod
  attachedFiles : Option (List AttachedFile)
  items : List ExpenseItem
  currency : Option String
  privateInfo : String
deriving DecidableEq

/-- The payee object of the submission payload:
`{ [payeeIdField]: expenseData.payee.id }` where `payeeIdField` is `id`
when `payee.id` is a string and `legacyId` otherwise. -/
inductive PayeeRef
  | byId (s : String)
  | byLegacyId (n : Int)
deriving DecidableEq

/-- An item of the submission payload (result of `pick` on a draft item). -/
structure SubmittedItem where
  id : Option String
  url : Option String
  description : Option String
  incurredAt : Option String
  amount : Option Int
deriving DecidableEq

/-- An attached file of the submission payload, reduced to `{id, url}`. -/
structure SubmittedAttachedFile where
  id : Option String
  url : Option String
deriving DecidableEq

/-- The submission payload produced by `prepareExpenseForSubmit`. -/
structure SubmittedExpense where
  id : Option String
  description : String
  type : Option ExpenseType
  privateMessage : Option String
  invoiceInfo : Option String
  tags : Option (List String)
  payee : Option PayeeRef
  payoutMethod : PayoutMethod
  attachedFiles : Option (List SubmittedAttachedFile)
  items : List SubmittedItem
deriving DecidableEq

/-- Lodash `pick(expenseData.payoutMethod, ['id','name','data','isSaved','type'])`:
`pick` of a missing object is the empty object. -/
def pickPayoutMethod : Option PayoutMethod → PayoutMethod
  | some pm => pm
  | none => { id := none, name := none, data := none, isSaved := none, type := none }

/-- The per-item `pick` of `prepareExpenseForSubmit`: the `id` key is kept
only when the item is not locally created (`__isNew`), the `url` key only
when the expense type is not INVOICE; `description`, `incurredAt` and
`amount` are always kept. -/
def itemForSubmit (t : Option ExpenseType) (item : ExpenseItem) : SubmittedItem :=
  { id := if item.__isNew then none else item.id
    url := if t = some ExpenseType.INVOICE then none else item.url
    description := item.description
    incurredAt := item.incurredAt
    amount := item.amount }

/-- Embedding of `prepareExpenseForSubmit` (part_000, lines 97-116). -/
def prepareExpenseForSubmit (expenseData : ExpenseValues) : SubmittedExpense :=
  { id := expenseData.id
    description := expenseData.description
    type := expenseData.type
    privateMessage := expenseData.privateMessage
    invoiceInfo := expenseData.invoiceInfo
    tags := expenseData.tags
    payee := expenseData.payee.map (fun p =>
      match p.id with
      | PayeeIdValue.str s => PayeeRef.byId s
      | PayeeIdValue.num n => PayeeRef.byLegacyId n)
    payoutMethod := pickPayoutMethod expenseData.payoutMethod
    attachedFiles := expenseData.attachedFiles.map
      (List.map (fun f => ({ id := f.id, url := f.url } : SubmittedAttachedFile)))
    items := expenseData.items.map (itemForSubmit expenseData.type) }

/-- A required-field error value (ERROR.FORM_FIELD_REQUIRED). -/
inductive FieldErr
  | FORM_FIELD_REQUIRED
deriving DecidableEq

/-- The `payoutMethod` slot of the error mapping: either the required-field
error from `requireFields`, or a non-empty mapping produced by the external
`validatePayoutMethod`. -/
inductive PayoutFieldErr
  | required
  | invalid (errs : List String)
deriving DecidableEq

/-- The error mapping returned by `validate`: a key is present (`some`)
exactly when the field has an error. -/
structure ExpenseErrors where
  description : Option FieldErr
  payee : Option FieldErr
  payoutMethod : Option PayoutFieldErr
  currency : Option FieldErr
  items : Option (List (List String))
deriving DecidableEq

/-- Lodash `isEmpty` on the error mapping: no key is present. -/
def ExpenseErrors.isEmpty (e : ExpenseErrors) : Bool :=
  e.description.isNone && e.payee.isNone && e.payoutMethod.isNone
    && e.currency.isNone && e.items.isNone

/-- JS falsiness of an optional string: absent or empty. -/
def falsyStr : Option String → Bool
  | none => true
  | some s => s == ""

/-- Modelled from the spec: `requireFields` comes from lib/form-utils, which
is not among the sources; per the spec, a missing or empty value among
`description`, `payee`, `payoutMethod` and `currency` produces a
required-field error keyed by the field name. -/
def requireFields (e : ExpenseValues) : ExpenseErrors :=
  { description := if e.description = "" then some FieldErr.FORM_FIELD_REQUIRED else none
    payee := if e.payee = none then some FieldErr.FORM_FIELD_REQUIRED else none
    payoutMethod := if e.payoutMethod = none then some PayoutFieldErr.required else none
    currency := if falsyStr e.currency then some FieldErr.FORM_FIELD_REQUIRED else none
    items := none }

/-- Embedding of `validate` (part_000, lines 121-140), parameterized by the
external pure sub-validators `validateExpenseItem` (from ExpenseItemForm)
and `validatePayoutMethod` (from PayoutMethodForm), whose error mappings
are kept abstract as lists. -/
def validate (validateExpenseItem : ExpenseValues → ExpenseItem → List String)
    (validatePayoutMethod : PayoutMethod → List String)
    (expense : ExpenseValues) : ExpenseErrors :=
  let errors := requireFields expense
  let errors :=
    if 0 < expense.items.length then
      let itemsErrors := expense.items.map (validateExpenseItem expense)
      if itemsErrors.any (fun errs => !errs.isEmpty) then
        { errors with items := some itemsErrors }
      else errors
    else errors
  match expense.payoutMethod with
  | some pm =>
      let pmErrors := validatePayoutMethod pm
      if !pmErrors.isEmpty then
        { errors with payoutMethod := some (PayoutFieldErr.invalid pmErrors) }
      else errors
  | none => errors

/-- A run of `validate` through an explicit world state: the source body
performs no reads or writes besides its argument, so the state is threaded
past unchanged. -/
def validateRun {σ : Type} (f : ExpenseValues → ExpenseItem → List String)
    (g : PayoutMethod → List String) (expense : ExpenseValues) (w : σ) :
    ExpenseErrors × σ :=
  (validate f g expense, w)

/-- JS truthiness of `values.type && values.description` in
`ExpenseFormBody`. -/
def hasBaseFormFieldsCompleted (values : ExpenseValues) : Bool :=
  values.type.isSome && !(values.description == "")

/-- Embedding of `stepOneCompleted` (part_000, line 150). -/
def stepOneCompleted (values : ExpenseValues) : Bool :=
  hasBaseFormFieldsCompleted values && decide (0 < values.items.length)

/-- Embedding of `stepTwoCompleted` (part_000, line 151). -/
def stepTwoCompleted (values : ExpenseValues) : Bool :=
  stepOneCompleted values && values.payoutMethod.isSome

/-- The `disabled` prop of the submit button (part_000, line 393):
`!stepTwoCompleted || !formik.isValid`, where `isValid` is the form-state
library's flag that no validation errors exist. -/
def submitDisabled (values : ExpenseValues) (isValid : Bool) : Bool :=
  !stepTwoCompleted values || !isValid

/-- The per-session state of `ExpenseForm`: the `hasValidate` flag (state
hook seeded from `validateOnChange`) selecting on-every-change validation,
together with the error mapping held by the form-state library. -/
structure FormSession where
  hasValidate : Bool
  formErrors : Option ExpenseErrors
deriving DecidableEq

/-- The outcome of one submit attempt: the updated session and, when the
draft passed validation, the values handed to the external `onSubmit`. -/
structure SubmitAttemptResult where
  session : FormSession
  submittedValues : Option ExpenseValues
deriving DecidableEq

/-- Embedding of the Formik `onSubmit` handler of `ExpenseForm` (part_000,
lines 435-444): validate; on a non-empty mapping set `hasValidate` and the
form errors without calling the external `onSubmit`; otherwise hand the
values to the external `onSubmit`. -/
def handleSubmitAttempt (f : ExpenseValues → ExpenseItem → List String)
    (g : PayoutMethod → List String) (s : FormSession)
    (values : ExpenseValues) : SubmitAttemptResult :=
  let errors := validate f g values
  if !errors.isEmpty then
    { session := { hasValidate := true, formErrors := some errors }
      submittedValues := none }
  else
    { session := s, submittedValues := some values }

/-- The draft-restoring step of the load-from-localstorage effect
(part_000, lines 162-173): a loaded payout method of type BANK_ACCOUNT is
reset when the collective's host has no transferwise connection. -/
def restoreDraft (hostHasTransferwise : Bool) (loaded : ExpenseValues) :
    ExpenseValues :=
  if (match loaded.payoutMethod with
      | some pm => decide (pm.type = some PayoutMethodType.BANK_ACCOUNT)
      | none => false) && !hostHasTransferwise then
    { loaded with payoutMethod := none }
  else loaded

/-- Embedding of the whole mount effect: it runs only with a persister and
no unsaved edits (`!dirty`), and only when the persister holds values. -/
def loadSavedDraft (hasFormPersister dirty : Bool) (stored : Option ExpenseValues)
    (hostHasTransferwise : Bool) (current : ExpenseValues) : ExpenseValues :=
  if hasFormPersister && !dirty then
    match stored with
    | some loaded => restoreDraft hostHasTransferwise loaded
    | none => current
  else current

/-- Local state of `EditMemberModal`: the `submitting` flag
(`React.useState(false)`). -/
structure MemberModalState where
  submitting : Bool
deriving DecidableEq

/-- Outcome of awaiting the `editMember` mutation. -/
inductive MutationOutcome
  | ok
  | failed
deriving DecidableEq

/-- Observable trace of one run of `handleSubmitForm`: the final flag
state, whether an error escaped to the caller, and the value the
`submitting` flag held while the mutation was in flight (`none` when no
mutation was issued). -/
structure SubmitFormTrace where
  finalState : MemberModalState
  errorPropagated : Bool
  submittingDuringMutation : Option Bool
deriving DecidableEq

/-- Embedding of `handleSubmitForm` in EditMemberModal.js (lines 56-77):
when a sub-form submit is bound, the mutation is awaited with `submitting`
still at its entry value; `setSubmitting(true)` runs only after a
successful await; a rejection propagates with no catch and no
`setSubmitting` call. -/
def handleSubmitForm (hasBoundSubmitForm : Bool) (mutation : MutationOutcome)
    (s : MemberModalState) : SubmitFormTrace :=
  if hasBoundSubmitForm then
    match mutation with
    | MutationOutcome.failed =>
        { finalState := s, errorPropagated := true
          submittingDuringMutation := some s.submitting }
    | MutationOutcome.ok =>
        { finalState := { submitting := true }, errorPropagated := false
          submittingDuringMutation := some s.submitting }
  else
    { finalState := s, errorPropagated := false
      submittingDuringMutation := none }

/-- C1: for every draft expense whose type is INVOICE, every item object in
the payload returned by `prepareExpenseForSubmit` omits the `url` field,
regardless of whether the input items carried a url. -/
theorem invoice_items_omit_url (e : ExpenseValues)
    (h : e.type = some ExpenseType.INVOICE) :
    ∀ it ∈ (prepareExpenseForSubmit e).items, it.url = none := by
  intro it hit
  simp only [prepareExpenseForSubmit, List.mem_map] at hit
  obtain ⟨item, _, rfl⟩ := hit
  simp [itemForSubmit, h]

/-- C1 witness: a concrete INVOICE draft whose single item carries a url;
the payload's items all have `url = none`. -/
theorem invoice_items_omit_url_witness :
    (ExpenseValues.type ⟨none, some ExpenseType.INVOICE, "Office chairs", none,
        none, none, none, none, none,
        [⟨some "item-1", some "https://receipt.example/a.png", some "chair",
          some "2020-01-01", some 15000, false⟩],
        some "USD", ""⟩) = some ExpenseType.INVOICE
    ∧ ∀ it ∈ (prepareExpenseForSubmit ⟨none, some ExpenseType.INVOICE,
        "Office chairs", none, none, none, none, none, none,
        [⟨some "item-1", some "https://receipt.example/a.png", some "chair",
          some "2020-01-01", some 15000, false⟩],
        some "USD", ""⟩).items, it.url = none :=
  ⟨rfl, invoice_items_omit_url _ rfl⟩

/-- C2: each payload item omits `id` exactly when the item's `__isNew`
flag is set and carries the item's `id` otherwise; `description`,
`incurredAt` and `amount` are always kept (positionally, over `[n]?`). -/
theorem item_submission_shape (e : ExpenseValues) (n : Nat) :
    (prepareExpenseForSubmit e).items[n]? = (e.items[n]?).map (fun item =>
      { id := if item.__isNew then none else item.id
        url := if e.type = some ExpenseType.INVOICE then none else item.url
        description := item.description
        incurredAt := item.incurredAt
        amount := item.amount }) := by
  cases h : e.items[n]? <;> simp [prepareExpenseForSubmit, itemForSubmit, h]

/-- C3: `prepareExpenseForSubmit` reduces a set payee to a single
identifier field: `{id: payee.id}` when `payee.id` is a string, and the
identifier under the `legacyId` key otherwise. -/
theorem payee_reduction (e : ExpenseValues) (p : Payee) (h : e.payee = some p) :
    (prepareExpenseForSubmit e).payee = some (match p.id with
      | PayeeIdValue.str s => PayeeRef.byId s
      | PayeeIdValue.num n => PayeeRef.byLegacyId n) := by
  simp [prepareExpenseForSubmit, h]

/-- C3 witness: the spec's two concrete cases: `payee = {id: "abc"}` gives
`{id: "abc"}` and `payee = {id: 42, legacyId: 42}` carries 42 under the
`legacyId` key. -/
theorem payee_reduction_witness :
    (prepareExpenseForSubmit ⟨none, some ExpenseType.RECEIPT, "d", none, none,
        none, some ⟨PayeeIdValue.str "abc", none⟩, none, none, [],
        some "USD", ""⟩).payee = some (PayeeRef.byId "abc")
    ∧ (prepareExpenseForSubmit ⟨none, some ExpenseType.RECEIPT, "d", none, none,
        none, some ⟨PayeeIdValue.num 42, some 42⟩, none, none, [],
        some "USD", ""⟩).payee = some (PayeeRef.byLegacyId 42) :=
  ⟨payee_reduction _ ⟨PayeeIdValue.str "abc", none⟩ rfl,
   payee_reduction _ ⟨PayeeIdValue.num 42, some 42⟩ rfl⟩

/-- C10: when the draft's payee is unset, the payload's payee field is the
unset value itself, not an identifier object. -/
theorem unset_payee_stays_unset (e : ExpenseValues) (h : e.payee = none) :
    (prepareExpenseForSubmit e).payee = none := by
  simp [prepareExpenseForSubmit, h]

/-- C10 witness: a concrete draft with no payee. -/
theorem unset_payee_stays_unset_witness :
    (ExpenseValues.payee ⟨none, some ExpenseType.RECEIPT, "d", none, none,
        none, none, none, none, [], some "USD", ""⟩) = none
    ∧ (prepareExpenseForSubmit ⟨none, some ExpenseType.RECEIPT, "d", none,
        none, none, none, none, none, [], some "USD", ""⟩).payee = none :=
  ⟨rfl, unset_payee_stays_unset _ rfl⟩

/-- C4: a missing or empty `description`, `payee`, `payoutMethod` or
`currency` always leaves a required-field error keyed by that field in the
mapping returned by `validate`, whatever the sub-validators report. -/
theorem validate_required_fields
    (f : ExpenseValues → ExpenseItem → List String)
    (g : PayoutMethod → List String) (e : ExpenseValues) :
    (e.description = "" →
        (validate f g e).description = some FieldErr.FORM_FIELD_REQUIRED)
    ∧ (e.payee = none →
        (validate f g e).payee = some FieldErr.FORM_FIELD_REQUIRED)
    ∧ (e.payoutMethod = none →
        (validate f g e).payoutMethod = some PayoutFieldErr.required)
    ∧ (falsyStr e.currency = true →
        (validate f g e).currency = some FieldErr.FORM_FIELD_REQUIRED) := by
  refine ⟨fun h => ?_, fun h => ?_, fun h => ?_, fun h => ?_⟩
  · cases hpm : e.payoutMethod <;>
      simp [validate, requireFields, hpm, h] <;> split_ifs <;> simp [h]
  · cases hpm : e.payoutMethod <;>
      simp [validate, requireFields, hpm, h] <;> split_ifs <;> simp [h]
  · simp only [validate, requireFields, h]
    split_ifs <;> simp
  · cases hpm : e.payoutMethod <;>
      simp [validate, requireFields, hpm, h] <;> split_ifs <;> simp [h]

/-- C4 witness: the fully empty draft yields all four required-field
errors. -/
theorem validate_required_fields_witness :
    (validate (fun _ _ => []) (fun _ => [])
        ⟨none, none, "", none, none, none, none, none, none, [], none, ""⟩).description
      = some FieldErr.FORM_FIELD_REQUIRED
    ∧ (validate (fun _ _ => []) (fun _ => [])
        ⟨none, none, "", none, none, none, none, none, none, [], none, ""⟩).payee
      = some FieldErr.FORM_FIELD_REQUIRED
    ∧ (validate (fun _ _ => []) (fun _ => [])
        ⟨none, none, "", none, none, none, none, none, none, [], none, ""⟩).payoutMethod
      = some PayoutFieldErr.required
    ∧ (validate (fun _ _ => []) (fun _ => [])
        ⟨none, none, "", none, none, none, none, none, none, [], none, ""⟩).currency
      = some FieldErr.FORM_FIELD_REQUIRED :=
  ⟨(validate_required_fields _ _ _).1 rfl,
   (validate_required_fields _ _ _).2.1 rfl,
   (validate_required_fields _ _ _).2.2.1 rfl,
   (validate_required_fields _ _ _).2.2.2 rfl⟩

/-- C9: `validate` is pure and deterministic: a run through any world state
returns the mapping determined by the draft and the fixed pure
sub-validators alone, leaves the state untouched, and two runs on the same
draft return the same mapping. -/
theorem validate_pure_deterministic {σ : Type}
    (f : ExpenseValues → ExpenseItem → List String)
    (g : PayoutMethod → List String) (e : ExpenseValues) (w w' : σ) :
    (validateRun f g e w).1 = (validateRun f g e w').1
    ∧ (validateRun f g e w).2 = w
    ∧ (validateRun f g e w).1 = validate f g e :=
  ⟨rfl, rfl, rfl⟩

/-- C6: with an empty item list the submit control stays disabled
(`stepTwoCompleted` is false) even when a payout method is set; submission
is enabled exactly when type, description, at least one item and
payoutMethod are all set and the form has no validation errors. -/
theorem step_two_gating (v : ExpenseValues) (isValid : Bool) :
    (v.items = [] →
        stepTwoCompleted v = false ∧ submitDisabled v isValid = true)
    ∧ (submitDisabled v isValid = false ↔
        (v.type.isSome = true ∧ v.description ≠ "" ∧ v.items ≠ []
          ∧ v.payoutMethod.isSome = true ∧ isValid = true)) := by
  constructor
  · intro h
    simp [stepTwoCompleted, stepOneCompleted, hasBaseFormFieldsCompleted,
      submitDisabled, h]
  · cases isValid <;>
      simp [submitDisabled, stepTwoCompleted, stepOneCompleted,
        hasBaseFormFieldsCompleted, List.length_pos, and_assoc]

/-- C6 witness: a draft with everything set but `items = []` keeps the
submit control disabled. -/
theorem step_two_gating_witness :
    stepTwoCompleted ⟨none, some ExpenseType.RECEIPT, "Taxi", none, none,
        none, none, some ⟨some "pm1", some "Bank", none, some true,
        some PayoutMethodType.BANK_ACCOUNT⟩, none, [], some "USD", ""⟩ = false
    ∧ submitDisabled ⟨none, some ExpenseType.RECEIPT, "Taxi", none, none,
        none, none, some ⟨some "pm1", some "Bank", none, some true,
        some PayoutMethodType.BANK_ACCOUNT⟩, none, [], some "USD", ""⟩ true = true :=
  (step_two_gating _ true).1 rfl

/-- C7: a submit attempt with a non-empty error mapping never reaches the
external `onSubmit`, records the errors on the form and switches
`hasValidate` on; a clean attempt hands the values to `onSubmit`; and once
`hasValidate` is on, no submit attempt ever switches it off again. -/
theorem submit_attempt_gate (f : ExpenseValues → ExpenseItem → List String)
    (g : PayoutMethod → List String) (s : FormSession) (v : ExpenseValues) :
    ((validate f g v).isEmpty = false →
        (handleSubmitAttempt f g s v).submittedValues = none
        ∧ (handleSubmitAttempt f g s v).session.formErrors = some (validate f g v)
        ∧ (handleSubmitAttempt f g s v).session.hasValidate = true)
    ∧ ((validate f g v).isEmpty = true →
        (handleSubmitAttempt f g s v).submittedValues = some v
        ∧ (handleSubmitAttempt f g s v).session = s)
    ∧ (s.hasValidate = true →
        (handleSubmitAttempt f g s v).session.hasValidate = true) := by
  refine ⟨fun h => ?_, fun h => ?_, fun h => ?_⟩
  · simp [handleSubmitAttempt, h]
  · simp [handleSubmitAttempt, h]
  · cases he : (validate f g v).isEmpty <;> simp [handleSubmitAttempt, he, h]

/-- C7 witness: an invalid draft (empty description) is not handed to the
external `onSubmit`, errors are set and `hasValidate` switches on. -/
theorem submit_attempt_gate_witness :
    (validate (fun _ _ => []) (fun _ => [])
        ⟨none, none, "", none, none, none, none, none, none, [], none, ""⟩).isEmpty
      = false
    ∧ ((handleSubmitAttempt (fun _ _ => []) (fun _ => []) ⟨false, none⟩
        ⟨none, none, "", none, none, none, none, none, none, [], none, ""⟩).submittedValues
        = none
      ∧ (handleSubmitAttempt (fun _ _ => []) (fun _ => []) ⟨false, none⟩
        ⟨none, none, "", none, none, none, none, none, none, [], none, ""⟩).session.formErrors
        = some (validate (fun _ _ => []) (fun _ => [])
            ⟨none, none, "", none, none, none, none, none, none, [], none, ""⟩)
      ∧ (handleSubmitAttempt (fun _ _ => []) (fun _ => []) ⟨false, none⟩
        ⟨none, none, "", none, none, none, none, none, none, [], none, ""⟩).session.hasValidate
        = true) :=
  ⟨rfl, (submit_attempt_gate _ _ _ _).1 rfl⟩

/-- C8: with a persister present and no unsaved edits, loading a stored
draft restores every field unchanged, except that `payoutMethod` is
cleared exactly when the loaded payout method has type BANK_ACCOUNT and
the owning collective's host has no transferwise connection. -/
theorem draft_restore_round_trip (tw : Bool) (current loaded : ExpenseValues) :
    ((loadSavedDraft true false (some loaded) tw current).id = loaded.id
      ∧ (loadSavedDraft true false (some loaded) tw current).type = loaded.type
      ∧ (loadSavedDraft true false (some loaded) tw current).description = loaded.description
      ∧ (loadSavedDraft true false (some loaded) tw current).privateMessage = loaded.privateMessage
      ∧ (loadSavedDraft true false (some loaded) tw current).invoiceInfo = loaded.invoiceInfo
      ∧ (loadSavedDraft true false (some loaded) tw current).tags = loaded.tags
      ∧ (loadSavedDraft true false (some loaded) tw current).payee = loaded.payee
      ∧ (loadSavedDraft true false (some loaded) tw current).attachedFiles = loaded.attachedFiles
      ∧ (loadSavedDraft true false (some loaded) tw current).items = loaded.items
      ∧ (loadSavedDraft true false (some loaded) tw current).currency = loaded.currency
      ∧ (loadSavedDraft true false (some loaded) tw current).privateInfo = loaded.privateInfo)
    ∧ ((∃ pm, loaded.payoutMethod = some pm
          ∧ pm.type = some PayoutMethodType.BANK_ACCOUNT) ∧ tw = false →
        (loadSavedDraft true false (some loaded) tw current).payoutMethod = none)
    ∧ (¬((∃ pm, loaded.payoutMethod = some pm
          ∧ pm.type = some PayoutMethodType.BANK_ACCOUNT) ∧ tw = false) →
        (loadSavedDraft true false (some loaded) tw current).payoutMethod
          = loaded.payoutMethod) := by
  refine ⟨?_, fun h => ?_, fun h => ?_⟩
  · simp only [loadSavedDraft, restoreDraft, Bool.and_self, Bool.not_false,
      Bool.and_true, if_true]
    split_ifs <;> simp
  · obtain ⟨⟨pm, hpm, hba⟩, htw⟩ := h
    subst htw
    simp [loadSavedDraft, restoreDraft, hpm, hba]
  · cases hpm : loaded.payoutMethod with
    | none => simp [loadSavedDraft, restoreDraft, hpm]
    | some pm =>
        cases tw with
        | true => simp [loadSavedDraft, restoreDraft, hpm]
        | false =>
            have hba : ¬pm.type = some PayoutMethodType.BANK_ACCOUNT :=
              fun hb => h ⟨⟨pm, hpm, hb⟩, rfl⟩
            simp [loadSavedDraft, restoreDraft, hpm, hba]

/-- C8 witness: a stored draft whose payout method has type BANK_ACCOUNT
is restored with the payout method cleared when the host has no
transferwise connection. -/
theorem draft_restore_round_trip_witness :
    (loadSavedDraft true false
        (some ⟨none, some ExpenseType.RECEIPT, "Taxi", none, none, none,
          none, some ⟨some "pm1", some "Bank", none, some true,
          some PayoutMethodType.BANK_ACCOUNT⟩, none, [], some "USD", ""⟩)
        false
        ⟨none, none, "", none, none, none, none, none, none, [], none, ""⟩).payoutMethod
      = none :=
  (draft_restore_round_trip false _ _).2.1
    ⟨⟨⟨some "pm1", some "Bank", none, some true,
        some PayoutMethodType.BANK_ACCOUNT⟩, rfl, rfl⟩, rfl⟩

/-- C5: evaluation of `handleSubmitForm` (EditMemberModal.js) at the
failing input: with the sub-form bound and the state at its initial value,
the `submitting` flag is false while the mutation is in flight; when the
mutation fails the flag is still false and the rejection propagates; when
it succeeds the flag is set to true only afterwards.  The flag is thus not
set for the duration of the sequence and is never reset on failure, contrary
to the claim. -/
theorem member_modal_submitting_flag :
    (handleSubmitForm true MutationOutcome.failed ⟨false⟩).submittingDuringMutation
      = some false
    ∧ (handleSubmitForm true MutationOutcome.failed ⟨false⟩).finalState.submitting
      = false
    ∧ (handleSubmitForm true MutationOutcome.failed ⟨false⟩).errorPropagated
      = true
    ∧ (handleSubmitForm true MutationOutcome.ok ⟨false⟩).submittingDuringMutation
      = some false
    ∧ (handleSubmitForm true MutationOutcome.ok ⟨false⟩).finalState.submitting
      = true :=
  ⟨rfl, rfl, rfl, rfl, rfl⟩

end OC
